import Mathlib

/-!
# Verification of the `example_astronauts` pipeline

Shallow embedding of `dags/example_astronauts.py` (the spacecraft tracking
task and the history persistence task) together with the spacecraft
velocity/trajectory estimator component described in the design document.
Python floats are modelled as rationals where the code only compares and
copies them, and as real numbers where trigonometry is involved.
-/

/-- One ISS position fix as parsed by `get_spacecraft_tracking_data`:
`latitude` and `longitude` from `data["iss_position"]`, `timestamp` from
`data["timestamp"]`. -/
structure IssPosition where
  latitude : ℚ
  longitude : ℚ
  timestamp : ℚ
deriving DecidableEq

/-- The dictionary returned by `get_spacecraft_tracking_data`. -/
structure TrackingData where
  latitude : ℚ
  longitude : ℚ
  velocity_kmh : ℚ
  velocity_kms : ℚ
  trajectory_bearing : ℚ
  trajectory_direction : String
  altitude_km : ℚ
  timestamp : ℚ
deriving DecidableEq

/-- `get_spacecraft_tracking_data`: on a successful fetch it returns the
fetched position together with the standard ISS orbital constants
(27600 km/h, 7.66 km/s, 420 km) and a trajectory direction/bearing chosen
by the sign of the latitude; when the HTTP request raises a
`RequestException` it returns the fixed default record. The fetch itself
is I/O and is modelled by an `Except` input. -/
def get_spacecraft_tracking_data (fetch : Except String IssPosition) : TrackingData :=
  match fetch with
  | Except.ok data =>
      let velocity_kmh : ℚ := 27600
      let velocity_kms : ℚ := 7.66
      let altitude_km : ℚ := 420
      let traj : String × ℚ :=
        if data.latitude > 0 then ("Northeast", 45.0) else ("Southeast", 135.0)
      { latitude := data.latitude
        longitude := data.longitude
        velocity_kmh := velocity_kmh
        velocity_kms := velocity_kms
        trajectory_bearing := traj.2
        trajectory_direction := traj.1
        altitude_km := altitude_km
        timestamp := data.timestamp }
  | Except.error _ =>
      { latitude := 0.0
        longitude := 0.0
        velocity_kmh := 27600
        velocity_kms := 7.66
        trajectory_bearing := 90.0
        trajectory_direction := "East"
        altitude_km := 420
        timestamp := 0 }

/-- One row of the spacecraft history DataFrame built by
`save_spacecraft_history`. -/
structure HistoryRow where
  timestamp : ℚ
  date : String
  astronaut_count : ℕ
  spacecraft_speed_kmh : ℚ
  spacecraft_speed_kms : ℚ
  trajectory_bearing : ℚ
  trajectory_direction : String
  latitude : ℚ
  longitude : ℚ
  altitude_km : ℚ
  countries : String
  companies : String

/-- `save_spacecraft_history`: builds the new record from the tracking data,
appends it to the history, and keeps only the last 100 rows
(`updated_history.tail(100)` when the length exceeds 100). The wall-clock
date, the astronaut count and the joined country/company strings come from
the runtime context and are passed as parameters; writing the CSV file is
I/O outside the embedding. -/
def save_spacecraft_history (tracking : TrackingData) (number_of_people : ℕ)
    (date countries companies : String) (history_df : List HistoryRow) : List HistoryRow :=
  let new_record : HistoryRow :=
    { timestamp := tracking.timestamp
      date := date
      astronaut_count := number_of_people
      spacecraft_speed_kmh := tracking.velocity_kmh
      spacecraft_speed_kms := tracking.velocity_kms
      trajectory_bearing := tracking.trajectory_bearing
      trajectory_direction := tracking.trajectory_direction
      latitude := tracking.latitude
      longitude := tracking.longitude
      altitude_km := tracking.altitude_km
      countries := countries
      companies := companies }
  let updated_history := history_df ++ [new_record]
  if updated_history.length > 100 then
    updated_history.drop (updated_history.length - 100)
  else
    updated_history

/-!
## The TrajectoryEstimator component

The design document specifies the spacecraft velocity/trajectory estimator
(haversine distance over the orbital radius, initial great-circle bearing,
8-sector direction bucketing). That estimator lives in a sibling variant of
the pipeline that is not part of this source tree, so the definitions below
are modelled from the specification text. Floats are modelled as real
numbers; rounding to two decimals is presentation precision per the spec
and is deferred to the boundary.
-/

noncomputable section

/-- Modelled from the spec: mean Earth radius constant, in kilometres. -/
def EARTH_RADIUS_KM : ℝ := 6371

/-- Modelled from the spec: fixed ISS orbital altitude, in kilometres. -/
def ORBITAL_ALTITUDE_KM : ℝ := 420

/-- Modelled from the spec: one GPS fix — latitude and longitude in degrees
and an epoch timestamp in seconds. -/
structure PositionSample where
  latitude : ℝ
  longitude : ℝ
  timestamp : ℝ

/-- Modelled from the spec: the output record of the estimator. -/
structure TrajectoryEstimate where
  latitude : ℝ
  longitude : ℝ
  speed_kmh : ℝ
  speed_kms : ℝ
  bearing_degrees : ℝ
  direction : String
  altitude_km : ℝ
  timestamp : ℝ

/-- The two-argument arctangent `atan2 y x`, as used by the spec's
`c = 2·atan2(√a, √(1−a))` and bearing formulas. It is the argument of the
complex number `x + y·i`, which matches the C/Python convention including
`atan2 0 0 = 0`. -/
def atan2 (y x : ℝ) : ℝ := Complex.arg ((x : ℂ) + (y : ℂ) * Complex.I)

/-- Python's float modulo for a positive modulus: `a - b·⌊a/b⌋`, used by the
spec's bearing normalisation `(bearing + 360) mod 360`. -/
def realMod (a b : ℝ) : ℝ := a - b * ↑⌊a / b⌋

/-- Modelled from the spec: great-circle haversine distance between the two
samples, scaled by the orbital radius `EARTH_RADIUS_KM + ORBITAL_ALTITUDE_KM`. -/
def haversineDistance (s1 s2 : PositionSample) : ℝ :=
  let lat1 := s1.latitude * Real.pi / 180
  let lat2 := s2.latitude * Real.pi / 180
  let dlat := lat2 - lat1
  let dlon := (s2.longitude - s1.longitude) * Real.pi / 180
  let a := Real.sin (dlat / 2) ^ 2 +
    Real.cos lat1 * Real.cos lat2 * Real.sin (dlon / 2) ^ 2
  let c := 2 * atan2 (Real.sqrt a) (Real.sqrt (1 - a))
  (EARTH_RADIUS_KM + ORBITAL_ALTITUDE_KM) * c

/-- Modelled from the spec: initial bearing from `s1` to `s2`, converted to
degrees and normalised into `[0, 360)`. -/
def bearing_degrees (s1 s2 : PositionSample) : ℝ :=
  let lat1 := s1.latitude * Real.pi / 180
  let lat2 := s2.latitude * Real.pi / 180
  let dlon := (s2.longitude - s1.longitude) * Real.pi / 180
  let y := Real.sin dlon * Real.cos lat2
  let x := Real.cos lat1 * Real.sin lat2 - Real.sin lat1 * Real.cos lat2 * Real.cos dlon
  realMod (atan2 y x * 180 / Real.pi + 360) 360

/-- Modelled from the spec: map a normalised bearing to one of the 8 compass
labels using 45°-wide sectors offset by 22.5°. -/
def directionOf (bearing : ℝ) : String :=
  if bearing < 22.5 then "North"
  else if bearing < 67.5 then "Northeast"
  else if bearing < 112.5 then "East"
  else if bearing < 157.5 then "Southeast"
  else if bearing < 202.5 then "South"
  else if bearing < 247.5 then "Southwest"
  else if bearing < 292.5 then "West"
  else if bearing < 337.5 then "Northwest"
  else "North"

/-- Modelled from the spec: `estimate(sample1, sample2)` — haversine distance
over the orbital radius, speeds guarded by `Δt > 0`, bearing and direction,
position/timestamp copied from the second sample, constant altitude. -/
def TrajectoryEstimator.estimate (s1 s2 : PositionSample) : TrajectoryEstimate :=
  let distance := haversineDistance s1 s2
  let dt := s2.timestamp - s1.timestamp
  let speed_kms := if dt > 0 then distance / dt else 0
  let speed_kmh := if dt > 0 then speed_kms * 3600 else 0
  let bearing := bearing_degrees s1 s2
  { latitude := s2.latitude
    longitude := s2.longitude
    speed_kmh := speed_kmh
    speed_kms := speed_kms
    bearing_degrees := bearing
    direction := directionOf bearing
    altitude_km := ORBITAL_ALTITUDE_KM
    timestamp := s2.timestamp }

end

/-- C8: for a successfully fetched position the trajectory fields depend only
on the sign of the latitude — positive latitude gives "Northeast"/45.0,
otherwise "Southeast"/135.0 — while velocity and altitude are the constants
27600 km/h, 7.66 km/s and 420 km independent of the input. -/
theorem c8_tracking_latitude_sign (pos : IssPosition) :
    (0 < pos.latitude →
      (get_spacecraft_tracking_data (Except.ok pos)).trajectory_direction = "Northeast" ∧
      (get_spacecraft_tracking_data (Except.ok pos)).trajectory_bearing = 45) ∧
    (pos.latitude ≤ 0 →
      (get_spacecraft_tracking_data (Except.ok pos)).trajectory_direction = "Southeast" ∧
      (get_spacecraft_tracking_data (Except.ok pos)).trajectory_bearing = 135) ∧
    (get_spacecraft_tracking_data (Except.ok pos)).velocity_kmh = 27600 ∧
    (get_spacecraft_tracking_data (Except.ok pos)).velocity_kms = 7.66 ∧
    (get_spacecraft_tracking_data (Except.ok pos)).altitude_km = 420 := by
  by_cases h : 0 < pos.latitude
  · refine ⟨fun _ => ?_, fun h' => absurd h (not_lt.mpr h'), ?_, ?_, ?_⟩ <;>
      simp [get_spacecraft_tracking_data, h] <;> norm_num
  · refine ⟨fun h' => absurd h' h, fun _ => ?_, ?_, ?_, ?_⟩ <;>
      simp [get_spacecraft_tracking_data, h] <;> norm_num

theorem c8_tracking_latitude_sign_witness :
    (0 : ℚ) < 10 ∧
      (get_spacecraft_tracking_data (Except.ok ⟨10, 20, 1700000000⟩)).trajectory_direction =
        "Northeast" :=
  ⟨by norm_num, ((c8_tracking_latitude_sign ⟨10, 20, 1700000000⟩).1 (by norm_num)).1⟩

/-- C9: when the upstream HTTP fetch raises a request exception, the task
returns the fixed default record rather than propagating the error. -/
theorem c9_default_on_error (msg : String) :
    get_spacecraft_tracking_data (Except.error msg) =
      { latitude := 0.0
        longitude := 0.0
        velocity_kmh := 27600
        velocity_kms := 7.66
        trajectory_bearing := 90.0
        trajectory_direction := "East"
        altitude_km := 420
        timestamp := 0 } := rfl

/-- C10: after appending the new record (and dropping rows beyond the most
recent 100), the history returned by `save_spacecraft_history` always has at
most 100 rows. -/
theorem c10_history_at_most_100 (tracking : TrackingData) (number_of_people : ℕ)
    (date countries companies : String) (history_df : List HistoryRow) :
    (save_spacecraft_history tracking number_of_people date countries companies
        history_df).length ≤ 100 := by
  simp only [save_spacecraft_history]
  split
  · rw [List.length_drop]
    omega
  · omega

/-- C1: with elapsed time `Δt = timestamp2 − timestamp1 > 0`, the estimate's
`speed_kms` is the haversine distance (over the orbital radius
`EARTH_RADIUS_KM + ORBITAL_ALTITUDE_KM`) divided by `Δt` and `speed_kmh` is
`speed_kms · 3600`; for `Δt ≤ 0` both speeds are `0`. -/
theorem c1_speed_from_haversine (s1 s2 : PositionSample) :
    (0 < s2.timestamp - s1.timestamp →
      (TrajectoryEstimator.estimate s1 s2).speed_kms =
        haversineDistance s1 s2 / (s2.timestamp - s1.timestamp) ∧
      (TrajectoryEstimator.estimate s1 s2).speed_kmh =
        (TrajectoryEstimator.estimate s1 s2).speed_kms * 3600) ∧
    (s2.timestamp - s1.timestamp ≤ 0 →
      (TrajectoryEstimator.estimate s1 s2).speed_kms = 0 ∧
      (TrajectoryEstimator.estimate s1 s2).speed_kmh = 0) := by
  constructor
  · intro h
    simp [TrajectoryEstimator.estimate, h]
  · intro h
    simp [TrajectoryEstimator.estimate, not_lt.mpr h]

theorem c1_speed_from_haversine_witness :
    0 < (PositionSample.mk 0 1 1005).timestamp - (PositionSample.mk 0 0 1000).timestamp ∧
    (TrajectoryEstimator.estimate (PositionSample.mk 0 0 1000)
        (PositionSample.mk 0 1 1005)).speed_kms =
      haversineDistance (PositionSample.mk 0 0 1000) (PositionSample.mk 0 1 1005) /
        ((PositionSample.mk 0 1 1005).timestamp - (PositionSample.mk 0 0 1000).timestamp) :=
  ⟨by norm_num,
    ((c1_speed_from_haversine (PositionSample.mk 0 0 1000)
        (PositionSample.mk 0 1 1005)).1 (by norm_num)).1⟩

/-- C3: the estimator is deterministic — two runs on equal input samples
produce equal `TrajectoryEstimate` outputs (side-effect freedom is reflected
by the embedding of the estimator as a pure function). -/
theorem c3_deterministic (s1 s2 t1 t2 : PositionSample)
    (h1 : s1 = t1) (h2 : s2 = t2) :
    TrajectoryEstimator.estimate s1 s2 = TrajectoryEstimator.estimate t1 t2 := by
  rw [h1, h2]

theorem c3_deterministic_witness :
    TrajectoryEstimator.estimate (PositionSample.mk 0 0 1000) (PositionSample.mk 0 1 1005) =
      TrajectoryEstimator.estimate (PositionSample.mk 0 0 1000) (PositionSample.mk 0 1 1005) :=
  c3_deterministic (PositionSample.mk 0 0 1000) (PositionSample.mk 0 1 1005)
    (PositionSample.mk 0 0 1000) (PositionSample.mk 0 1 1005) rfl rfl

/-- C4: when the second timestamp equals or precedes the first (`Δt ≤ 0`),
both `speed_kmh` and `speed_kms` are `0`, regardless of the distance between
the two positions. -/
theorem c4_zero_speed_on_nonpositive_dt (s1 s2 : PositionSample)
    (h : s2.timestamp - s1.timestamp ≤ 0) :
    (TrajectoryEstimator.estimate s1 s2).speed_kmh = 0 ∧
    (TrajectoryEstimator.estimate s1 s2).speed_kms = 0 := by
  simp [TrajectoryEstimator.estimate, not_lt.mpr h]

theorem c4_zero_speed_on_nonpositive_dt_witness :
    (PositionSample.mk 40 170 2000).timestamp - (PositionSample.mk 0 0 2000).timestamp ≤ 0 ∧
    (TrajectoryEstimator.estimate (PositionSample.mk 0 0 2000)
        (PositionSample.mk 40 170 2000)).speed_kmh = 0 :=
  ⟨by norm_num,
    (c4_zero_speed_on_nonpositive_dt (PositionSample.mk 0 0 2000)
        (PositionSample.mk 40 170 2000) (by norm_num)).1⟩

/-- C5: the estimate's latitude and longitude are copied unchanged from the
second sample, its timestamp is the second sample's epoch seconds, and its
altitude is the constant 420 km. -/
theorem c5_output_passthrough (s1 s2 : PositionSample) :
    (TrajectoryEstimator.estimate s1 s2).latitude = s2.latitude ∧
    (TrajectoryEstimator.estimate s1 s2).longitude = s2.longitude ∧
    (TrajectoryEstimator.estimate s1 s2).timestamp = s2.timestamp ∧
    (TrajectoryEstimator.estimate s1 s2).altitude_km = 420 :=
  ⟨rfl, rfl, rfl, rfl⟩

set_option maxHeartbeats 1600000 in
/-- C2: the direction label in the output is a deterministic, total function
of the computed bearing alone, and on `[0, 360)` the 8 compass labels are
assigned by 45°-wide sectors with boundaries at
`{22.5, 67.5, 112.5, 157.5, 202.5, 247.5, 292.5, 337.5}`. -/
theorem c2_direction_sectors :
    (∀ s1 s2 : PositionSample,
      (TrajectoryEstimator.estimate s1 s2).direction =
        directionOf (TrajectoryEstimator.estimate s1 s2).bearing_degrees) ∧
    ∀ b : ℝ, 0 ≤ b → b < 360 →
      ((337.5 ≤ b ∨ b < 22.5) → directionOf b = "North") ∧
      (22.5 ≤ b ∧ b < 67.5 → directionOf b = "Northeast") ∧
      (67.5 ≤ b ∧ b < 112.5 → directionOf b = "East") ∧
      (112.5 ≤ b ∧ b < 157.5 → directionOf b = "Southeast") ∧
      (157.5 ≤ b ∧ b < 202.5 → directionOf b = "South") ∧
      (202.5 ≤ b ∧ b < 247.5 → directionOf b = "Southwest") ∧
      (247.5 ≤ b ∧ b < 292.5 → directionOf b = "West") ∧
      (292.5 ≤ b ∧ b < 337.5 → directionOf b = "Northwest") := by
  constructor
  · intro s1 s2
    rfl
  · intro b hb0 hb360
    refine ⟨?_, ?_, ?_, ?_, ?_, ?_, ?_, ?_⟩
    · rintro (h | h) <;> (unfold directionOf; split_ifs <;> first | rfl | linarith)
    all_goals
      rintro ⟨ha, hb⟩
      unfold directionOf
      split_ifs <;> first | rfl | linarith

theorem c2_direction_sectors_witness :
    (0 : ℝ) ≤ 90 ∧ (90 : ℝ) < 360 ∧ ((67.5 : ℝ) ≤ 90 ∧ (90 : ℝ) < 112.5) ∧
      directionOf 90 = "East" :=
  ⟨by norm_num, by norm_num, by norm_num,
    ((c2_direction_sectors.2 90 (by norm_num) (by norm_num)).2.2.1 (by norm_num))⟩

/-- Helper: `atan2 y x` is non-negative whenever `y` is non-negative. -/
theorem atan2_nonneg {y : ℝ} (x : ℝ) (hy : 0 ≤ y) : 0 ≤ atan2 y x := by
  unfold atan2
  rw [Complex.arg_nonneg_iff]
  simp [hy]

/-- Helper: the haversine distance is non-negative. -/
theorem haversineDistance_nonneg (s1 s2 : PositionSample) :
    0 ≤ haversineDistance s1 s2 := by
  have h : ∀ a : ℝ, 0 ≤ 2 * atan2 (Real.sqrt a) (Real.sqrt (1 - a)) := fun a =>
    mul_nonneg (by norm_num) (atan2_nonneg _ (Real.sqrt_nonneg a))
  unfold haversineDistance EARTH_RADIUS_KM ORBITAL_ALTITUDE_KM
  exact mul_nonneg (by norm_num) (h _)

/-- C7: the estimator is total over its documented input domain — for every
pair of samples with in-range coordinates and non-negative timestamps it
returns a `TrajectoryEstimate` with non-negative speeds, degrading to zero
speed rather than failing when the elapsed time is non-positive. -/
theorem c7_total_on_domain (s1 s2 : PositionSample)
    (ha1 : -90 ≤ s1.latitude) (ha2 : s1.latitude ≤ 90)
    (hb1 : -90 ≤ s2.latitude) (hb2 : s2.latitude ≤ 90)
    (hc1 : -180 ≤ s1.longitude) (hc2 : s1.longitude ≤ 180)
    (hd1 : -180 ≤ s2.longitude) (hd2 : s2.longitude ≤ 180)
    (ht1 : 0 ≤ s1.timestamp) (ht2 : 0 ≤ s2.timestamp) :
    ∃ e : TrajectoryEstimate, TrajectoryEstimator.estimate s1 s2 = e ∧
      0 ≤ e.speed_kms ∧ 0 ≤ e.speed_kmh ∧
      (s2.timestamp - s1.timestamp ≤ 0 → e.speed_kms = 0 ∧ e.speed_kmh = 0) := by
  refine ⟨TrajectoryEstimator.estimate s1 s2, rfl, ?_, ?_, ?_⟩
  · by_cases h : 0 < s2.timestamp - s1.timestamp
    · have := haversineDistance_nonneg s1 s2
      simp only [TrajectoryEstimator.estimate, h, if_pos, gt_iff_lt]
      positivity
    · simp [TrajectoryEstimator.estimate, h]
  · by_cases h : 0 < s2.timestamp - s1.timestamp
    · have := haversineDistance_nonneg s1 s2
      simp only [TrajectoryEstimator.estimate, h, if_pos, gt_iff_lt]
      positivity
    · simp [TrajectoryEstimator.estimate, h]
  · intro h
    simp [TrajectoryEstimator.estimate, not_lt.mpr h]

theorem c7_total_on_domain_witness :
    ∃ e : TrajectoryEstimate,
      TrajectoryEstimator.estimate (PositionSample.mk 0 0 1000) (PositionSample.mk 0 1 1005) = e ∧
      0 ≤ e.speed_kms ∧ 0 ≤ e.speed_kmh ∧
      ((PositionSample.mk 0 1 1005).timestamp - (PositionSample.mk 0 0 1000).timestamp ≤ 0 →
        e.speed_kms = 0 ∧ e.speed_kmh = 0) :=
  c7_total_on_domain (PositionSample.mk 0 0 1000) (PositionSample.mk 0 1 1005)
    (by norm_num) (by norm_num) (by norm_num) (by norm_num) (by norm_num)
    (by norm_num) (by norm_num) (by norm_num) (by norm_num) (by norm_num)

/-- Helper: field equation for `speed_kms` when the elapsed time is positive. -/
theorem estimate_speed_kms (s1 s2 : PositionSample) (h : 0 < s2.timestamp - s1.timestamp) :
    (TrajectoryEstimator.estimate s1 s2).speed_kms =
      haversineDistance s1 s2 / (s2.timestamp - s1.timestamp) := by
  simp [TrajectoryEstimator.estimate, h]

/-- Helper: field equation for `speed_kmh` when the elapsed time is positive. -/
theorem estimate_speed_kmh (s1 s2 : PositionSample) (h : 0 < s2.timestamp - s1.timestamp) :
    (TrajectoryEstimator.estimate s1 s2).speed_kmh =
      haversineDistance s1 s2 / (s2.timestamp - s1.timestamp) * 3600 := by
  simp [TrajectoryEstimator.estimate, h]

/-- Helper: the bearing field of the estimate. -/
theorem estimate_bearing (s1 s2 : PositionSample) :
    (TrajectoryEstimator.estimate s1 s2).bearing_degrees = bearing_degrees s1 s2 := rfl

/-- Helper: the direction field of the estimate. -/
theorem estimate_direction (s1 s2 : PositionSample) :
    (TrajectoryEstimator.estimate s1 s2).direction = directionOf (bearing_degrees s1 s2) := rfl

/-- Helper: `atan2 (sin θ) (cos θ) = θ` on `(-π, π]`. -/
theorem atan2_sin_cos {θ : ℝ} (h1 : -Real.pi < θ) (h2 : θ ≤ Real.pi) :
    atan2 (Real.sin θ) (Real.cos θ) = θ := by
  unfold atan2
  rw [show ((Real.cos θ : ℂ) + (Real.sin θ : ℂ) * Complex.I)
      = Complex.cos θ + Complex.sin θ * Complex.I by
    rw [Complex.ofReal_cos, Complex.ofReal_sin]]
  exact Complex.arg_cos_add_sin_mul_I ⟨h1, h2⟩

/-- Helper: `atan2 y 0 = π/2` for positive `y`. -/
theorem atan2_pos_y_zero_x {y : ℝ} (hy : 0 < y) : atan2 y 0 = Real.pi / 2 := by
  unfold atan2
  exact Complex.arg_eq_pi_div_two_iff.mpr ⟨by simp, by simpa⟩

/-- Helper: the haversine central angle reduces to the angle itself for small
non-negative angles. -/
theorem atan2_sqrt_sin_sq {θ : ℝ} (h0 : 0 ≤ θ) (h2 : θ < Real.pi / 2) :
    atan2 (Real.sqrt (Real.sin θ ^ 2)) (Real.sqrt (1 - Real.sin θ ^ 2)) = θ := by
  have hpi := Real.pi_pos
  have hs : 0 ≤ Real.sin θ :=
    Real.sin_nonneg_of_nonneg_of_le_pi h0 (by linarith)
  have hc : 0 ≤ Real.cos θ :=
    Real.cos_nonneg_of_mem_Icc ⟨by linarith, le_of_lt h2⟩
  rw [Real.sqrt_sq hs,
    show (1 : ℝ) - Real.sin θ ^ 2 = Real.cos θ ^ 2 from by rw [Real.cos_sq'],
    Real.sqrt_sq hc, atan2_sin_cos (by linarith) (by linarith)]

/-- Helper: the haversine distance of the concrete equatorial 1°-longitude
scenario is the orbital radius times `π/180`. -/
theorem haversine_c6_scenario :
    haversineDistance (PositionSample.mk 0 0 1000) (PositionSample.mk 0 1 1005) =
      6791 * Real.pi / 180 := by
  have hpi := Real.pi_pos
  have key := atan2_sqrt_sin_sq (θ := Real.pi / 180 / 2) (by positivity) (by linarith)
  unfold haversineDistance EARTH_RADIUS_KM ORBITAL_ALTITUDE_KM
  norm_num [Real.sin_zero, Real.cos_zero]
  rw [key]
  ring

/-- Helper: the bearing of the concrete equatorial 1°-longitude scenario is
due East, 90°. -/
theorem bearing_c6_scenario :
    bearing_degrees (PositionSample.mk 0 0 1000) (PositionSample.mk 0 1 1005) = 90 := by
  have hpi := Real.pi_pos
  have hy : 0 < Real.sin (Real.pi / 180) :=
    Real.sin_pos_of_pos_of_lt_pi (by positivity) (by linarith)
  unfold bearing_degrees
  norm_num [Real.sin_zero, Real.cos_zero]
  rw [atan2_pos_y_zero_x hy]
  have h450 : Real.pi / 2 * 180 / Real.pi + 360 = 450 := by
    field_simp
    ring
  rw [h450]
  unfold realMod
  have hfloor : ⌊(450 : ℝ) / 360⌋ = 1 := by
    rw [Int.floor_eq_iff] <;> norm_num
  rw [hfloor]
  norm_num

/-- C6: for sample1 = (lat 0, lon 0, t 1000) and sample2 = (lat 0, lon 1,
t 1005), the estimator returns speed_kms ≈ 23.7 (within 0.01), speed_kmh
≈ 85320 (within 20), bearing exactly 90° and direction "East". -/
theorem c6_concrete_scenario :
    |(TrajectoryEstimator.estimate (PositionSample.mk 0 0 1000)
        (PositionSample.mk 0 1 1005)).speed_kms - 23.7| < 0.01 ∧
    |(TrajectoryEstimator.estimate (PositionSample.mk 0 0 1000)
        (PositionSample.mk 0 1 1005)).speed_kmh - 85320| < 20 ∧
    (TrajectoryEstimator.estimate (PositionSample.mk 0 0 1000)
        (PositionSample.mk 0 1 1005)).bearing_degrees = 90 ∧
    (TrajectoryEstimator.estimate (PositionSample.mk 0 0 1000)
        (PositionSample.mk 0 1 1005)).direction = "East" := by
  have h1 := Real.pi_gt_d6
  have h2 := Real.pi_lt_d6
  have hdt : (0 : ℝ) <
      (PositionSample.mk 0 1 1005).timestamp - (PositionSample.mk 0 0 1000).timestamp := by
    norm_num
  have hdt5 : (PositionSample.mk (0:ℝ) 1 1005).timestamp -
      (PositionSample.mk (0:ℝ) 0 1000).timestamp = 5 := by norm_num
  refine ⟨?_, ?_, ?_, ?_⟩
  · rw [estimate_speed_kms _ _ hdt, haversine_c6_scenario, hdt5, abs_lt]
    constructor <;> linarith
  · rw [estimate_speed_kmh _ _ hdt, haversine_c6_scenario, hdt5, abs_lt]
    constructor <;> linarith
  · rw [estimate_bearing, bearing_c6_scenario]
  · rw [estimate_direction, bearing_c6_scenario]
    norm_num [directionOf]
